import Mathlib

/-!
Shallow embedding of `src/item.rs` (crate `btree-slab2`): the `ItemAddr`
address type and the `Item<K, V>` storage cell.

Modelling conventions:
* `MaybeUninit<T>` is an inductive with an `uninit` and an `init` state;
  `assume_init` is fallible (`Option`), returning `none` exactly where the
  Rust call would be undefined behaviour.
* Destructor activity is made observable: operations that may run `drop`
  return a `List (DropEvent K V)` recording each destructor run, so the
  drop-once properties of the spec become statements about those lists.
  `std::mem::forget` and `std::mem::swap` contribute no events.
* `usize` is `Nat`; `std::usize::MAX` is the 64-bit value `2 ^ 64 - 1`.
-/

/-- The value of `std::usize::MAX` on a 64-bit target. -/
def USIZE_MAX : Nat := 2 ^ 64 - 1

/-- `ItemAddr` (src/item.rs, lines 11-15): a node id and an offset within the
node.  `derive(PartialEq, Eq)` gives structural equality over both fields. -/
structure ItemAddr where
  id : Nat
  offset : Nat
deriving DecidableEq

/-- `ItemAddr::nowhere` (src/item.rs, lines 19-24): the sentinel address,
id = `usize::MAX`, offset = 0. -/
def ItemAddr.nowhere : ItemAddr :=
  { id := USIZE_MAX, offset := 0 }

/-- `ItemAddr::is_nowhere` (src/item.rs, lines 27-29): true iff the id equals
`usize::MAX`; the offset is not inspected. -/
def ItemAddr.is_nowhere (self : ItemAddr) : Bool :=
  self.id == USIZE_MAX

/-- `impl fmt::Display for ItemAddr` (src/item.rs, lines 32-36):
renders the two fields in decimal. -/
def ItemAddr.display (self : ItemAddr) : String :=
  "@" ++ toString self.id ++ ":" ++ toString self.offset

/-- `impl fmt::Debug for ItemAddr` (src/item.rs, lines 38-42): identical
rendering to `Display`. -/
def ItemAddr.debugFmt (self : ItemAddr) : String :=
  "@" ++ toString self.id ++ ":" ++ toString self.offset

/-- Rendering required by the spec, stated independently of the source
definitions: an at sign, the id in decimal digits, a colon, the offset in
decimal digits. -/
def addrFormatSpec (a : ItemAddr) : String :=
  "@" ++ (Nat.toDigits 10 a.id).asString ++ ":" ++ (Nat.toDigits 10 a.offset).asString

/-- `std::mem::MaybeUninit<T>`: a slot that is either uninitialized or holds
a value of the payload type. -/
inductive MaybeUninit (α : Type) where
  | uninit : MaybeUninit α
  | init : α → MaybeUninit α
deriving DecidableEq

/-- `MaybeUninit::assume_init` (also standing for `assume_init_ref` and
`assume_init_mut` reads): defined only on an initialized slot; reading an
uninitialized slot is undefined behaviour, modelled as `none`. -/
def MaybeUninit.assume_init {α : Type} : MaybeUninit α → Option α
  | .uninit => none
  | .init a => some a

/-- One destructor run, recorded when `drop` is executed on a key or a value. -/
inductive DropEvent (K V : Type) where
  | dropKey : K → DropEvent K V
  | dropValue : V → DropEvent K V
deriving DecidableEq

/-- Whether an event is a run of the key destructor. -/
def DropEvent.isKeyDrop {K V : Type} : DropEvent K V → Bool
  | .dropKey _ => true
  | .dropValue _ => false

/-- Whether an event is a run of the value destructor. -/
def DropEvent.isValueDrop {K V : Type} : DropEvent K V → Bool
  | .dropKey _ => false
  | .dropValue _ => true

/-- `Item<K, V>` (src/item.rs, lines 44-51): a key slot and a value slot,
both `MaybeUninit`. -/
structure Item (K V : Type) where
  key : MaybeUninit K
  value : MaybeUninit V

variable {K V : Type}

/-- `Item::new` (src/item.rs, lines 54-59): wraps both components in
initialized slots. -/
def Item.new (key : K) (value : V) : Item K V :=
  { key := MaybeUninit.init key, value := MaybeUninit.init value }

/-- `Item::key` (src/item.rs, lines 62-64): borrow of the key,
`assume_init_ref` on the key slot. -/
def Item.getKey (self : Item K V) : Option K :=
  self.key.assume_init

/-- `Item::value` (src/item.rs, lines 67-69): borrow of the value,
`assume_init_ref` on the value slot. -/
def Item.getValue (self : Item K V) : Option V :=
  self.value.assume_init

/-- `Item::value_mut` (src/item.rs, lines 72-74): the target of the mutable
borrow, `assume_init_mut` on the value slot. -/
def Item.value_mut (self : Item K V) : Option V :=
  self.value.assume_init

/-- `Item::set_value` (src/item.rs, lines 77-81): wrap the new value, swap it
with the value slot, then `assume_init` the swapped-out slot and return it. -/
def Item.set_value (self : Item K V) (value : V) : Option (V × Item K V) :=
  let old_value := MaybeUninit.init value
  let swapped_out := self.value
  let self2 : Item K V := { self with value := old_value }
  (swapped_out.assume_init).map fun v => (v, self2)

/-- `Item::maybe_uninit_value_mut` (src/item.rs, lines 84-86), read half of
the `&mut MaybeUninit<V>` borrow: the raw value slot, uninitialized or not. -/
def Item.maybe_uninit_value_read (self : Item K V) : MaybeUninit V :=
  self.value

/-- `Item::maybe_uninit_value_mut` (src/item.rs, lines 84-86), write half of
the `&mut MaybeUninit<V>` borrow: store an arbitrary slot state back. -/
def Item.maybe_uninit_value_write (self : Item K V) (m : MaybeUninit V) : Item K V :=
  { self with value := m }

/-- `Item::into_inner` (src/item.rs, lines 106-113): swap both slots out
against fresh uninitialized ones and `mem::forget` the remains of `self`;
no destructor runs, so the event list is empty. -/
def Item.into_inner (self : Item K V) :
    (MaybeUninit K × MaybeUninit V) × List (DropEvent K V) :=
  ((self.key, self.value), [])

/-- `Item::into_value` (src/item.rs, lines 89-95): decompose via
`into_inner`, drop the key, return the value. -/
def Item.into_value (self : Item K V) : Option (V × List (DropEvent K V)) :=
  let ((key, value), events) := self.into_inner
  match key.assume_init, value.assume_init with
  | some k, some v => some (v, events ++ [DropEvent.dropKey k])
  | _, _ => none

/-- `Item::forget_value` (src/item.rs, lines 99-103): decompose via
`into_inner`, drop the key, `mem::forget` the value slot (no value
destructor runs). -/
def Item.forget_value (self : Item K V) : Option (List (DropEvent K V)) :=
  let ((key, _value), events) := self.into_inner
  (key.assume_init).map fun k => events ++ [DropEvent.dropKey k]

/-- `impl Drop for Item` (src/item.rs, lines 116-123): `drop_in_place` on the
key slot, then on the value slot; undefined behaviour if either slot is
uninitialized. -/
def Item.dropItem (self : Item K V) : Option (List (DropEvent K V)) :=
  match self.key.assume_init, self.value.assume_init with
  | some k, some v => some [DropEvent.dropKey k, DropEvent.dropValue v]
  | _, _ => none

/-- `impl PartialEq<K> for Item` (src/item.rs, lines 125-129): equality of a
cell against a bare key, delegating to the key type. -/
def Item.eqKey [BEq K] (self : Item K V) (key : K) : Option Bool :=
  (self.getKey).map fun k => k == key

/-- `impl PartialOrd<K> for Item` (src/item.rs, lines 131-135):
`Some(self.key().cmp(key))`. -/
def Item.cmpKey [Ord K] (self : Item K V) (key : K) : Option (Option Ordering) :=
  (self.getKey).map fun k => some (compare k key)

/-- `impl PartialEq for Item` (src/item.rs, lines 137-141): equality of two
cells compares the keys only. -/
def Item.eqItem [BEq K] (self other : Item K V) : Option Bool :=
  match self.getKey, other.getKey with
  | some k1, some k2 => some (k1 == k2)
  | _, _ => none

/-- `impl PartialOrd for Item` (src/item.rs, lines 143-147):
`Some(self.key().cmp(other.key()))`. -/
def Item.cmpItem [Ord K] (self other : Item K V) : Option (Option Ordering) :=
  match self.getKey, other.getKey with
  | some k1, some k2 => some (some (compare k1 k2))
  | _, _ => none

/-- Claim C6: for every key and value, `Item::new(k, v)` yields a fully
initialized cell whose `key()` observation is `k` and whose `value()`
observation is `v`; construction always succeeds. -/
theorem new_key_value (k : K) (v : V) :
    (Item.new (V := V) k v).getKey = some k ∧ (Item.new k v).getValue = some v :=
  ⟨rfl, rfl⟩

/-- Claim C4: on `Item::new(k, v1)`, `set_value(v2)` succeeds, returns `v1`
by ownership, and leaves a fully initialized cell equal to `Item::new(k, v2)`,
so a subsequent `value()` returns `v2`; no reachable result state has an
uninitialized value slot. -/
theorem set_value_swaps (k : K) (v1 v2 : V) :
    (Item.new k v1).set_value v2 = some (v1, Item.new k v2)
      ∧ (Item.new k v2).getValue = some v2 :=
  ⟨rfl, rfl⟩

/-- Claim C9: `set_value` touches only the value slot; after
`Item::new(k, v1).set_value(v2)` the key observation is still `k`. -/
theorem set_value_preserves_key (k : K) (v1 v2 : V) :
    ((Item.new k v1).set_value v2).bind (fun r => r.2.getKey) = some k :=
  rfl

/-- Claim C3: `Item::new(k, v).into_value()` succeeds, returns `v`, and the
only destructor run over the operation is one run of the key destructor. -/
theorem into_value_returns_value (k : K) (v : V) :
    (Item.new k v).into_value = some (v, [DropEvent.dropKey k]) :=
  rfl

/-- Claim C1: `into_inner` on `Item::new(k, v)` returns both slots still
initialized and runs no destructor; rebuilding a cell from the returned raw
slots restores the `key()` and `value()` observations, and dropping the
rebuilt cell runs the key destructor and the value destructor exactly once
each, so the whole decompose-reconstruct-drop cycle drops each component
exactly once. -/
theorem into_inner_roundtrip (k : K) (v : V) :
    (Item.new k v).into_inner
        = ((MaybeUninit.init k, MaybeUninit.init v), ([] : List (DropEvent K V)))
      ∧ (Item.mk (MaybeUninit.init k) (MaybeUninit.init v)).getKey = some k
      ∧ (Item.mk (MaybeUninit.init k) (MaybeUninit.init v)).getValue = some v
      ∧ (Item.mk (MaybeUninit.init k) (MaybeUninit.init v)).dropItem
          = some [DropEvent.dropKey k, DropEvent.dropValue v]
      ∧ List.countP DropEvent.isKeyDrop
          (([] : List (DropEvent K V)) ++ [DropEvent.dropKey k, DropEvent.dropValue v]) = 1
      ∧ List.countP DropEvent.isValueDrop
          (([] : List (DropEvent K V)) ++ [DropEvent.dropKey k, DropEvent.dropValue v]) = 1 :=
  ⟨rfl, rfl, rfl, rfl, rfl, rfl⟩

/-- Claim C2: on a cell whose value slot has been relinquished (left
uninitialized after the value was moved out through the raw escape hatch),
`forget_value` succeeds, runs the key destructor exactly once and runs no
value destructor; together with one separate drop of the extracted value,
the key and the value are each destructed exactly once in total. -/
theorem forget_value_drops_key_only (k : K) (v : V) (it : Item K V)
    (hk : it.key = MaybeUninit.init k) (hv : it.value = MaybeUninit.uninit) :
    it.forget_value = some [DropEvent.dropKey k]
      ∧ List.countP DropEvent.isKeyDrop
          ([DropEvent.dropKey k] ++ [DropEvent.dropValue v]) = 1
      ∧ List.countP DropEvent.isValueDrop
          ([DropEvent.dropKey k] ++ [DropEvent.dropValue v]) = 1 := by
  refine ⟨?_, rfl, rfl⟩
  simp [Item.forget_value, Item.into_inner, hk, MaybeUninit.assume_init]

/-- Witness for C2 at a concrete cell: key slot holds `0`, value slot is
uninitialized, and the separately dropped value is `5`. -/
theorem forget_value_drops_key_only_witness :
    (Item.mk (MaybeUninit.init (0 : Nat)) (MaybeUninit.uninit : MaybeUninit Nat)).forget_value
        = some [DropEvent.dropKey 0]
      ∧ List.countP DropEvent.isKeyDrop
          ([DropEvent.dropKey 0] ++ [DropEvent.dropValue 5] : List (DropEvent Nat Nat)) = 1
      ∧ List.countP DropEvent.isValueDrop
          ([DropEvent.dropKey 0] ++ [DropEvent.dropValue 5] : List (DropEvent Nat Nat)) = 1 :=
  forget_value_drops_key_only 0 5
    (Item.mk (MaybeUninit.init 0) MaybeUninit.uninit) rfl rfl

/-- Claim C5: equality and ordering of two cells, and of a cell against a
bare key, delegate to the key comparison and ignore both values: the results
on `Item::new(k1, v1)` and `Item::new(k2, v2)` are exactly the key type's
`k1 == k2` and `compare k1 k2`, whatever `v1` and `v2` are. -/
theorem compare_by_key_only [BEq K] [Ord K] (k1 k2 : K) (v1 v2 : V) :
    (Item.new k1 v1).eqItem (Item.new k2 v2) = some (k1 == k2)
      ∧ (Item.new k1 v1).cmpItem (Item.new k2 v2) = some (some (compare k1 k2))
      ∧ (Item.new k1 v1).eqKey k2 = some (k1 == k2)
      ∧ (Item.new k1 v1).cmpKey k2 = some (some (compare k1 k2))
      ∧ ((Item.new k1 v1).eqItem (Item.new k2 v2) = some true ↔ (k1 == k2) = true) := by
  refine ⟨rfl, rfl, rfl, rfl, ?_⟩
  simp [Item.eqItem, Item.new, Item.getKey, MaybeUninit.assume_init]

/-- Claim C7: `nowhere()` is the address with id `usize::MAX` and offset 0
and satisfies `is_nowhere`; `is_nowhere` holds exactly when the id equals
the sentinel, so any other id gives `false` for every offset. -/
theorem nowhere_sentinel :
    ItemAddr.nowhere = { id := USIZE_MAX, offset := 0 }
      ∧ ItemAddr.nowhere.is_nowhere = true
      ∧ (∀ id offset : Nat, (ItemAddr.mk id offset).is_nowhere = true ↔ id = USIZE_MAX)
      ∧ (∀ id offset : Nat, id ≠ USIZE_MAX → (ItemAddr.mk id offset).is_nowhere = false) := by
  refine ⟨rfl, ?_, ?_, ?_⟩
  · simp [ItemAddr.is_nowhere, ItemAddr.nowhere]
  · intro id offset
    simp [ItemAddr.is_nowhere]
  · intro id offset h
    simp [ItemAddr.is_nowhere, h]

/-- Witness for C7 at a concrete non-sentinel address `{id := 3, offset := 7}`. -/
theorem nowhere_sentinel_witness :
    (3 : Nat) ≠ USIZE_MAX ∧ (ItemAddr.mk 3 7).is_nowhere = false :=
  ⟨by decide, nowhere_sentinel.2.2.2 3 7 (by decide)⟩

/-- Claim C8: `Display` and `Debug` both render an address as the at sign,
the id in decimal digits, a colon, and the offset in decimal digits, and
nothing else; for example, `{id := 12, offset := 34}` renders as `@12:34`. -/
theorem addr_format (a : ItemAddr) :
    a.display = addrFormatSpec a
      ∧ a.debugFmt = addrFormatSpec a
      ∧ (ItemAddr.mk 12 34).display = "@12:34"
      ∧ (ItemAddr.mk 12 34).debugFmt = "@12:34" :=
  ⟨rfl, rfl, rfl, rfl⟩

/-- Claim C10: the address `{id := usize::MAX, offset := 1}` satisfies
`is_nowhere` yet differs from the canonical `nowhere()` value, because
equality is structural over both fields while `is_nowhere` inspects only
the id. -/
theorem is_nowhere_without_being_nowhere :
    (ItemAddr.mk USIZE_MAX 1).is_nowhere = true
      ∧ ItemAddr.mk USIZE_MAX 1 ≠ ItemAddr.nowhere := by
  constructor
  · simp [ItemAddr.is_nowhere]
  · intro h
    have : (1 : Nat) = 0 := congrArg ItemAddr.offset h
    exact one_ne_zero this
